import Mathlib

/-!
Verification development for the Inoreader MCP adapter.

The Python sources (utils.py, client.py, tools.py) are shallowly embedded:
dictionaries of known shape become structures whose fields are `Option`
(absent key = `none`), Python `None` is `none`, exceptions become `Option`
or `Except` results, and the response of the HTTP layer is a tagged union
(raw text vs parsed JSON), as the design notes of the program prescribe.
Python strings are sequences of code points, so the string primitives the
program uses (`in`, `replace`, `split`, `startswith`, `lower`) are defined
here on `String.data : List Char`, matching the Python semantics.
-/

/-- Python substring test `pat in s`: `pat` occurs contiguously in `s`.
The empty pattern is contained in every string, as in Python. -/
def containsSub (s pat : String) : Bool :=
  decide (pat.data <:+: s.data)

/-- Python `s.startswith(pre)`. -/
def pyStartsWith (s pre : String) : Bool :=
  pre.data.isPrefixOf s.data

/-- Python `s.lower()`, restricted to the character-wise case mapping
(the program only lowercases feed titles for sorting). -/
def pyLower (s : String) : String :=
  (s.data.map Char.toLower).asString

/-- Worker for Python `s.replace(old, new)` on code-point lists: replaces
every non-overlapping occurrence of `old`, scanning left to right.
Requires `old` nonempty (the program only replaces the pattern "feed/").
The fuel argument, always called with the length of the input, only
makes the recursion structural: every step consumes at least one
character, so the zero-fuel branch is unreachable from `replaceAll`. -/
def replaceAllL (old new : List Char) : Nat → List Char → List Char
  | _, [] => []
  | 0, l => l
  | fuel + 1, c :: cs =>
    if old ≠ [] ∧ old.isPrefixOf (c :: cs) then
      new ++ replaceAllL old new fuel ((c :: cs).drop old.length)
    else c :: replaceAllL old new fuel cs

/-- Python `s.replace(old, new)`; for the empty pattern the input is
returned unchanged (that case never occurs in the program). -/
def replaceAll (s old new : String) : String :=
  (replaceAllL old.data new.data s.data.length s.data).asString

/-- Worker for Python `s.split(sep)` with nonempty separator, on
code-point lists; fuel as in `replaceAllL`. -/
def splitAllL (sep : List Char) : Nat → List Char → List (List Char)
  | _, [] => [[]]
  | 0, l => [l]
  | fuel + 1, c :: cs =>
    if sep ≠ [] ∧ sep.isPrefixOf (c :: cs) then
      [] :: splitAllL sep fuel ((c :: cs).drop sep.length)
    else
      match splitAllL sep fuel cs with
      | [] => [[c]]
      | p :: ps => (c :: p) :: ps

/-- Python `s.split(sep)` for a nonempty separator (Python raises
ValueError on an empty separator; the program only splits on "://"). -/
def splitAll (s sep : String) : List String :=
  (splitAllL sep.data s.data.length s.data).map List.asString

/-- Scanner for the lazy tag regex: after the opening angle bracket and
one consumed character, consume characters other than the two angle
brackets until the first closing one; an opening bracket aborts the
match, exactly as the pattern has no way to extend across it. -/
def tagScan : List Char → Option (List Char)
  | [] => none
  | c :: cs =>
    if c = ('>') then some cs
    else if c = ('<') then none
    else tagScan cs

/-- Attempt to match the remainder of the regex `<[^<]+?>` right after an
opening angle bracket: at least one character not an opening bracket,
then (lazily) the first closing bracket. Returns the input remaining
after the matched tag. -/
def tagEnd (l : List Char) : Option (List Char) :=
  match l with
  | [] => none
  | c :: cs => if c = ('<') then none else tagScan cs

/-- Python `re.sub("<[^<]+?>", "", s)` on code-point lists: scan left to
right; at an opening angle bracket try to match a tag and drop it,
otherwise keep the character and continue one position further. A
successful `tagEnd` consumes at least two characters, so fuel equal to
the input length makes the zero-fuel branch unreachable from
`stripTags`. -/
def stripTagsL : Nat → List Char → List Char
  | _, [] => []
  | 0, l => l
  | fuel + 1, c :: cs =>
    if c = ('<') then
      match tagEnd cs with
      | some rest => stripTagsL fuel rest
      | none => c :: stripTagsL fuel cs
    else c :: stripTagsL fuel cs

/-- HTML-tag stripping as `parse_article` performs it on the summary. -/
def stripTags (s : String) : String :=
  (stripTagsL s.data.length s.data).asString

/-- Days, then civil date, from a count of days since the Unix epoch
(standard civil-from-days computation with truncated division). -/
def civilFromDays (z0 : Int) : Int × Int × Int :=
  let z := z0 + 719468
  let era := (if 0 ≤ z then z else z - 146096) / 146097
  let doe := z - era * 146097
  let yoe := (doe - doe / 1460 + doe / 36524 - doe / 146096) / 365
  let y := yoe + era * 400
  let doy := doe - (365 * yoe + yoe / 4 - yoe / 100)
  let mp := (5 * doy + 2) / 153
  let d := doy - (153 * mp + 2) / 5 + 1
  let m := mp + (if mp < 10 then 3 else -9)
  (y + (if m ≤ 2 then 1 else 0), m, d)

/-- Zero-pad a nonnegative number to two digits. -/
def pad2 (n : Int) : String :=
  if n < 10 then ("0") ++ toString n else toString n

/-- Zero-pad a nonnegative number to four digits (year field). -/
def pad4 (n : Int) : String :=
  if n < 10 then ("000") ++ toString n
  else if n < 100 then ("00") ++ toString n
  else if n < 1000 then ("0") ++ toString n
  else toString n

/-- Python `datetime.fromtimestamp(ts).isoformat()` for whole-second
timestamps, modelled at UTC (the Python call uses the local timezone;
the zone offset does not matter for any property proved here). -/
def isoformat (ts : Int) : String :=
  let days := Int.fdiv ts 86400
  let secs := Int.emod ts 86400
  let ymd := civilFromDays days
  pad4 ymd.1 ++ ("-") ++ pad2 ymd.2.1 ++ ("-") ++ pad2 ymd.2.2
    ++ ("T") ++ pad2 (secs / 3600) ++ (":") ++ pad2 ((secs % 3600) / 60)
    ++ (":") ++ pad2 (secs % 60)

/-- A category entry of a raw stream item or subscription: the API may
deliver a plain string or an object with optional id and label fields. -/
inductive Category where
  | cstr (s : String)
  | cobj (id : Option String) (label : Option String)
deriving DecidableEq

/-- The origin object of a raw stream item. -/
structure Origin where
  title : Option String
  streamId : Option String
deriving DecidableEq

/-- An entry of the alternate-link list of a raw stream item. -/
structure Alternate where
  type : Option String
  href : Option String
deriving DecidableEq

/-- A one-field wrapper holding optional text, the shape of the summary
and content objects of a raw stream item. -/
structure ContentBlock where
  content : Option String
deriving DecidableEq

/-- A raw stream item as delivered by the API; every field is optional
(absent dictionary key = none). -/
structure Item where
  id : Option String := none
  title : Option String := none
  published : Option Int := none
  author : Option String := none
  origin : Option Origin := none
  categories : Option (List Category) := none
  alternate : Option (List Alternate) := none
  summary : Option ContentBlock := none
  content : Option ContentBlock := none
deriving DecidableEq

/-- The normalized article record produced by `parse_article`. Fields the
Python code may leave as `None` are `Option String` here. -/
structure Article where
  id : String
  title : String
  published : Int
  published_date : Option String
  author : String
  feed_title : String
  feed_id : String
  categories : List String
  is_read : Bool
  url : Option String
  summary : Option String
deriving DecidableEq

/-- The identifier substring whose presence marks the read state. -/
def readStateTag : String := "state/com.google/read"

/-- Python truthiness of an optional integer (`None` and `0` are falsy). -/
def pyTruthyInt (o : Option Int) : Bool :=
  match o with
  | none => false
  | some n => decide (n ≠ 0)

/-- Python truthiness of an optional string (`None` and the empty string
are falsy). -/
def pyTruthyStr (o : Option String) : Bool :=
  match o with
  | none => false
  | some s => decide (s ≠ (""))

/-- Python string interpolation of an optional string (`None` prints as
the four-letter word None). -/
def pyShowOpt (o : Option String) : String :=
  match o with
  | none => "None"
  | some s => s

/-- The identifier the read-state test inspects for one category entry:
the id field of an object (defaulting to empty), the string itself
otherwise — the expression
`cat.get("id", "") if isinstance(cat, dict) else str(cat)`. -/
def categoryIdent (cat : Category) : String :=
  match cat with
  | .cstr s => s
  | .cobj id _ => id.getD ("")

/-- The display form of a category entry used for the categories field:
`cat.get("label", "") if isinstance(cat, dict) else str(cat)`. -/
def categoryLabel (cat : Category) : String :=
  match cat with
  | .cstr s => s
  | .cobj _ label => label.getD ("")

/-- The first alternate entry whose type field equals text/html. -/
def firstHtmlAlt (item : Item) : Option Alternate :=
  (item.alternate.getD []).find? (fun alt => alt.type == some ("text/html"))

/-- utils.parse_article: normalize a raw stream item into an article
record. Field by field this mirrors the Python dictionary literal and
the two following if-blocks (url from the first text/html alternate
link, summary stripped of tags and truncated at 500 characters). -/
def parse_article (item : Item) : Article :=
  { id := item.id.getD ("")
    title := item.title.getD ("No title")
    published := item.published.getD 0
    published_date :=
      if pyTruthyInt item.published then some (isoformat (item.published.getD 0)) else none
    author := item.author.getD ("Unknown")
    feed_title := ((item.origin.getD { title := none, streamId := none }).title).getD ("Unknown feed")
    feed_id := ((item.origin.getD { title := none, streamId := none }).streamId).getD ("")
    categories := (item.categories.getD []).map categoryLabel
    is_read := (item.categories.getD []).any (fun cat => containsSub (categoryIdent cat) readStateTag)
    url := (firstHtmlAlt item).bind Alternate.href
    summary :=
      match item.summary with
      | none => none
      | some sb =>
        let t := stripTags (sb.content.getD (""))
        some (if 500 < t.length then t.take 500 ++ ("...") else t) }

/-- A raw subscription as delivered by the API; every field optional. -/
structure Subscription where
  id : Option String := none
  title : Option String := none
  url : Option String := none
  htmlUrl : Option String := none
  categories : Option (List Category) := none
  firstitemmsec : Option Int := none
deriving DecidableEq

/-- The normalized feed record produced by `parse_feed`. -/
structure Feed where
  id : String
  title : String
  url : String
  htmlUrl : String
  categories : List String
  firstItemMsec : Int
deriving DecidableEq

/-- The category comprehension of `parse_feed`:
`[cat.get("label", "") for cat in ...]`. A plain-string entry makes
`cat.get` raise AttributeError, modelled as `none`; evaluation is left
to right and aborts at the first failure, as in Python. -/
def feedCatLabels : List Category → Option (List String)
  | [] => some []
  | c :: cs =>
    match c with
    | .cstr _ => none
    | .cobj _ label => (feedCatLabels cs).map (fun rest => label.getD ("") :: rest)

/-- utils.parse_feed: normalize a raw subscription. The result is `none`
exactly when the Python function raises. -/
def parse_feed (subscription : Subscription) : Option Feed :=
  match feedCatLabels (subscription.categories.getD []) with
  | none => none
  | some labels =>
    some
      { id := subscription.id.getD ("")
        title := subscription.title.getD ("Untitled")
        url := subscription.url.getD ("")
        htmlUrl := subscription.htmlUrl.getD ("")
        categories := labels
        firstItemMsec := subscription.firstitemmsec.getD 0 }

/-- utils.days_to_timestamp at whole-second granularity, parameterized by
the current epoch time (the Python function reads the wall clock):
`int((datetime.now() - timedelta(days=days)).timestamp())`. -/
def days_to_timestamp (now days : Int) : Int :=
  now - days * 86400

/-- The lines one article contributes to the formatted list, with its
1-based position. -/
def articleLines (i : Nat) (article : Article) : List String :=
  [toString i ++ (". ") ++ (if article.is_read then ("✓") else ("•")) ++ (" ") ++ article.title,
   ("   Feed: ") ++ article.feed_title,
   ("   Date: ") ++ pyShowOpt article.published_date,
   if pyTruthyStr article.url then ("   Link: ") ++ article.url.getD ("")
   else ("   Link: No URL available"),
   ("")]

/-- utils.format_article_list. -/
def format_article_list (articles : List Article) : String :=
  if articles.isEmpty then "No articles found."
  else String.intercalate ("\n") ((articles.enum.map (fun p => articleLines (p.1 + 1) p.2)).flatten)

/-- The lines one feed contributes to the formatted list. -/
def feedLines (i : Nat) (feed : Feed) : List String :=
  [toString i ++ (". ") ++ feed.title]
    ++ (if feed.categories.isEmpty then []
        else [("   Categories: ") ++ String.intercalate (", ") feed.categories])
    ++ [("   URL: ") ++ feed.url, ("")]

/-- utils.format_feed_list. -/
def format_feed_list (feeds : List Feed) : String :=
  if feeds.isEmpty then "No feeds found."
  else String.intercalate ("\n") ((feeds.enum.map (fun p => feedLines (p.1 + 1) p.2)).flatten)

/-- utils.chunk_list: the slice comprehension
`[lst[i : i + chunk_size] for i in range(0, len(lst), chunk_size)]`.
The range enumerates ceil(len / chunk_size) offsets 0, cs, 2cs, ...,
and each slice is drop-then-take. (Python raises ValueError when the
step is 0; the sole call site passes 20.) -/
def chunk_list {α : Type} (lst : List α) (chunk_size : Nat) : List (List α) :=
  (List.range' 0 ((lst.length + chunk_size - 1) / chunk_size) chunk_size).map
    (fun i => (lst.drop i).take chunk_size)

/-- A JSON value, the shape of a parsed response body. -/
inductive JVal where
  | jnull
  | jbool (b : Bool)
  | jnum (n : Int)
  | jstr (s : String)
  | jarr (elems : List JVal)
  | jobj (fields : List (String × JVal))

/-- Python equality of a parsed JSON value with a string: only the JSON
string with the same code points compares equal. -/
def jvalIsPyStr (v : JVal) (t : String) : Bool :=
  match v with
  | .jstr s => s == t
  | _ => false

/-- The structured body of a stream-contents or search response: a
dictionary whose items key (possibly absent) holds the item list. -/
structure StreamContents where
  items : Option (List Item) := none
deriving DecidableEq

/-- What the request layer hands back for a stream endpoint: raw text
when the content type is not JSON, otherwise the parsed body. -/
inductive StreamResp where
  | rtext (s : String)
  | rjson (v : StreamContents)
deriving DecidableEq

/-- What the request layer hands back for the edit-tag endpoint: raw
text, or a parsed JSON body of arbitrary shape. A raw body that is not
valid JSON can only arrive as `rtext` (a JSON-typed response with such a
body fails to parse and raises instead). -/
inductive MarkResp where
  | rtext (s : String)
  | rjson (v : JVal)

/-- The unread-count entries returned by the unread-count endpoint. -/
structure UnreadCount where
  id : Option String := none
  count : Option Int := none
deriving DecidableEq

namespace InoreaderClient

/-- Query parameters built by client.get_stream_contents. -/
structure StreamParams where
  n : Int
  output : String
  xt : Option String
  ot : Option Int
deriving DecidableEq

/-- One call of client.get_stream_contents: the parameters and endpoint
it sends and the value it returns. -/
structure StreamCall where
  params : StreamParams
  endpoint : String
  result : StreamContents
deriving DecidableEq

def readingListEndpoint : String := "stream/contents/user/-/state/com.google/reading-list"

/-- client.get_stream_contents: clamp the count, add the read-state
exclusion and the epoch floor when requested, pick the endpoint, and
replace a raw-text response by an empty item list. `maxArticles` is the
configured MAX_ARTICLES_PER_REQUEST. -/
def get_stream_contents (maxArticles : Int) (stream_id : Option String) (count : Int)
    (exclude_read : Bool) (newer_than : Option Int) (resp : StreamResp) : StreamCall :=
  { params :=
      { n := min count maxArticles
        output := ("json")
        xt := if exclude_read then some ("user/-/state/com.google/read") else none
        ot := if pyTruthyInt newer_than then some (newer_than.getD 0) else none }
    endpoint :=
      if pyTruthyStr stream_id then ("stream/contents/") ++ stream_id.getD ("")
      else readingListEndpoint
    result :=
      match resp with
      | .rtext _ => { items := some [] }
      | .rjson v => v }

/-- Query parameters built by client.search. -/
structure SearchParams where
  q : String
  n : Int
  output : String
  ot : Option Int
deriving DecidableEq

/-- One call of client.search. -/
structure SearchCall where
  params : SearchParams
  endpoint : String
  result : StreamContents
deriving DecidableEq

def searchEndpoint : String := "stream/contents/user/-/state/com.google/search"

/-- client.search: same clamping and epoch-floor rules as
get_stream_contents, fixed search endpoint, same raw-text fallback. -/
def search (maxArticles : Int) (query : String) (count : Int)
    (newer_than : Option Int) (resp : StreamResp) : SearchCall :=
  { params :=
      { q := query
        n := min count maxArticles
        output := ("json")
        ot := if pyTruthyInt newer_than then some (newer_than.getD 0) else none }
    endpoint := searchEndpoint
    result :=
      match resp with
      | .rtext _ => { items := some [] }
      | .rjson v => v }

/-- The form body posted to the edit-tag endpoint. -/
structure EditTagPost where
  i : List String
  a : String
deriving DecidableEq

/-- client.mark_as_read: an empty id list short-circuits to success with
no request; otherwise post the ids with the read-state tag and compare
the returned value against the Python string OK. The first component is
the request issued, if any. -/
def mark_as_read (item_ids : List String) (resp : MarkResp) : Option EditTagPost × Bool :=
  if item_ids.isEmpty then (none, true)
  else
    (some { i := item_ids, a := ("user/-/state/com.google/read") },
     match resp with
     | .rtext s => s == ("OK")
     | .rjson v => jvalIsPyStr v ("OK"))

/-- The observable trace of one use of `async with InoreaderClient()`:
whether a transport connection was established, whether it was released
before control left the scope, and the overall outcome. On enter the
connection and session are created, then authentication runs; if it
raises, the exception propagates out of the enter hook and Python never
invokes the exit hook, so the session is not closed. When enter
succeeds, the body runs and the exit hook closes the session
unconditionally, whatever the body produced. -/
structure SessionTrace (α : Type) where
  connected : Bool
  released : Bool
  outcome : Except String α

/-- The async-with protocol around the client, as described on
`SessionTrace`: `auth` is the outcome of authentication inside the
enter hook, `body` the outcome of the code inside the scope. -/
def with_client {α : Type} (auth : Except String Unit) (body : Except String α) : SessionTrace α :=
  match auth with
  | .error e => { connected := true, released := false, outcome := Except.error e }
  | .ok _ => { connected := true, released := true, outcome := body }

end InoreaderClient

namespace Tools

/-- The message of the AttributeError raised when `.get` is called on a
Python string. -/
def strAttributeError : String := "\x27str\x27 object has no attribute \x27get\x27"

/-- The list comprehension `[parse_feed(sub) for sub in subscriptions]`;
evaluation is left to right and the first raise aborts the whole
comprehension. -/
def parseFeeds : List Subscription → Option (List Feed)
  | [] => some []
  | s :: ss =>
    match parse_feed s with
    | none => none
    | some f => (parseFeeds ss).map (fun rest => f :: rest)

/-- The sorting key of list_feeds: case-insensitive title order. Python
uses a stable sort with this key, so any stable sorting algorithm under
this relation produces the same list. -/
def feedTitleLE (a b : Feed) : Prop := pyLower a.title ≤ pyLower b.title

instance : DecidableRel feedTitleLE :=
  fun a b => inferInstanceAs (Decidable (pyLower a.title ≤ pyLower b.title))

/-- tools.list_feeds, with the session and fetch represented by their
outcome: a raised failure, or the subscription list. -/
def list_feeds (outcome : Except String (List Subscription)) : String :=
  match outcome with
  | .error e => ("Error listing feeds: ") ++ e
  | .ok subscriptions =>
    match parseFeeds subscriptions with
    | none => ("Error listing feeds: ") ++ strAttributeError
    | some feeds =>
      if feeds.isEmpty then "No feeds found in your Inoreader account."
      else
        ("Found ") ++ toString feeds.length ++ (" feeds:\n\n")
          ++ format_feed_list (List.insertionSort feedTitleLE feeds)

/-- tools.list_articles. `now` is the wall-clock reading used by
days_to_timestamp; `outcome` is the session outcome carrying, on
success, the raw stream-contents response the client call receives.
The in-body guard for a string response is unreachable because the
client already replaced raw text by an empty item list. -/
def list_articles (now limit days : Int) (feed_id : Option String) (unread_only : Bool)
    (maxArticles : Int) (outcome : Except String StreamResp) : String :=
  match outcome with
  | .error e => ("Error listing articles: ") ++ e
  | .ok resp =>
    let newer_than := if days ≠ 0 then some (days_to_timestamp now days) else none
    let sc := (InoreaderClient.get_stream_contents maxArticles feed_id limit unread_only
      newer_than resp).result
    let articles := (sc.items.getD []).map parse_article
    if articles.isEmpty then
      let filters :=
        (if unread_only then [("unread" : String)] else [])
          ++ (if days ≠ 0 then [("from the last ") ++ toString days ++ (" days")] else [])
          ++ (if pyTruthyStr feed_id then [("in feed ") ++ feed_id.getD ("")] else [])
      if filters.isEmpty then "No articles found."
      else ("No articles found ") ++ String.intercalate (" ") filters ++ (".")
    else
      ("Found ") ++ toString articles.length ++ (" articles")
        ++ (if unread_only then (" (unread only)") else (""))
        ++ (if days ≠ 0 then (" from the last ") ++ toString days ++ (" days") else (""))
        ++ (":\n\n") ++ format_article_list articles

/-- tools.search_articles; `days` is optional with Python-truthiness
gating of the epoch floor. -/
def search_articles (now : Int) (query : String) (limit : Int) (days : Option Int)
    (maxArticles : Int) (outcome : Except String StreamResp) : String :=
  match outcome with
  | .error e => ("Error searching articles: ") ++ e
  | .ok resp =>
    let newer_than := if pyTruthyInt days then some (days_to_timestamp now (days.getD 0)) else none
    let sc := (InoreaderClient.search maxArticles query limit newer_than resp).result
    let articles := (sc.items.getD []).map parse_article
    if articles.isEmpty then ("No articles found matching \x27") ++ query ++ ("\x27")
    else
      ("Found ") ++ toString articles.length ++ (" articles matching \x27") ++ query ++ ("\x27")
        ++ (if pyTruthyInt days then (" from the last ") ++ toString (days.getD 0) ++ (" days")
            else (""))
        ++ (":\n\n") ++ format_article_list articles

/-- tools.get_content. On success the outcome carries the raw response
of get_stream_item_contents, which that client method returns without
any fallback; a raw-text response makes the `.get` lookup in the tool
body raise, which the surrounding handler turns into the prefixed
message. -/
def get_content (article_id : String) (outcome : Except String StreamResp) : String :=
  match outcome with
  | .error e => ("Error getting article content: ") ++ e
  | .ok (.rtext _) => ("Error getting article content: ") ++ strAttributeError
  | .ok (.rjson sc) =>
    match sc.items.getD [] with
    | [] => ("Article with ID ") ++ article_id ++ (" not found.")
    | item :: _ =>
      let article := parse_article item
      let header :=
        ("**") ++ article.title ++ ("**\n")
          ++ ("Author: ") ++ article.author ++ ("\n")
          ++ ("Feed: ") ++ article.feed_title ++ ("\n")
          ++ ("Date: ") ++ pyShowOpt article.published_date ++ ("\n")
          ++ (if pyTruthyStr article.url then ("Link: ") ++ article.url.getD ("") ++ ("\n")
              else ("Link: No URL available\n"))
          ++ ("Status: ") ++ (if article.is_read then ("Read") else ("Unread")) ++ ("\n")
      match item.content with
      | some cb =>
        if pyTruthyStr cb.content then header ++ ("\n---\n\n") ++ cb.content.getD ("")
        else header
      | none =>
        if pyTruthyStr article.summary then header ++ ("\n---\n\n") ++ article.summary.getD ("")
        else header ++ ("\n---\n\nNo content available for this article.")

/-- tools.mark_as_read. On success the outcome carries `respond`, where
`respond i` tells whether the i-th sequential edit-tag call (the calls
are issued one after another, one per chunk, in chunk order) reported
success; a call that raises instead is covered by the error outcome. -/
def mark_as_read (article_ids : List String) (outcome : Except String (Nat → Bool)) : String :=
  if article_ids.isEmpty then "No article IDs provided."
  else
    match outcome with
    | .error e => ("Error marking articles as read: ") ++ e
    | .ok respond =>
      let chunks := chunk_list article_ids 20
      let success_count :=
        chunks.enum.foldl (fun acc p => if respond p.1 then acc + p.2.length else acc) 0
      if success_count = article_ids.length then
        ("Successfully marked ") ++ toString success_count ++ (" article(s) as read.")
      else if 0 < success_count then
        ("Marked ") ++ toString success_count ++ (" out of ")
          ++ toString article_ids.length ++ (" articles as read.")
      else "Failed to mark articles as read."

/-- The retention test of get_stats: positive count and an id starting
with the feed prefix. -/
def keepUnread (u : UnreadCount) : Bool :=
  decide (0 < u.count.getD 0) && pyStartsWith (u.id.getD ("")) ("feed/")

/-- One retained entry of the statistics. -/
structure FeedStat where
  id : String
  count : Int
deriving DecidableEq

/-- Descending count order used to sort the retained entries
(`sort(key=..., reverse=True)` is stable, as is any insertion sort
under this relation, so the resulting lists agree). -/
def statCountGE (a b : FeedStat) : Prop := b.count ≤ a.count

instance : DecidableRel statCountGE :=
  fun a b => inferInstanceAs (Decidable (b.count ≤ a.count))

instance : IsTotal FeedStat statCountGE := ⟨fun a b => le_total b.count a.count⟩

instance : IsTrans FeedStat statCountGE := ⟨fun _ _ _ hab hbc => le_trans hbc hab⟩

/-- The accumulation loop of get_stats: one left-to-right pass adding
each retained count to the total and appending the entry. -/
def statsLoop (unread_counts : List UnreadCount) : Int × List FeedStat :=
  unread_counts.foldl
    (fun acc u =>
      if keepUnread u then
        (acc.1 + u.count.getD 0, acc.2 ++ [{ id := u.id.getD (""), count := u.count.getD 0 }])
      else acc)
    (0, [])

/-- The display name get_stats computes for a feed id:
`id.replace("feed/", "")` removes every occurrence of the prefix
pattern, then, when a scheme separator remains, `split("://")[-1]`
keeps the part after the last separator. -/
def feedDisplayName (id : String) : String :=
  let fn := replaceAll id ("feed/") ("")
  if containsSub fn ("://") then (splitAll fn ("://")).getLastD ("") else fn

/-- Modelled from the claim under scrutiny, not from the code: the
display name as the claim reads — only the leading feed prefix is
stripped, later occurrences are preserved, then the portion after the
scheme separator is kept. Used solely to exhibit the divergence of
`feedDisplayName` from the claim. -/
def specDisplayName (id : String) : String :=
  let fn := if pyStartsWith id ("feed/") then (id.data.drop 5).asString else id
  if containsSub fn ("://") then (splitAll fn ("://")).getLastD ("") else fn

/-- The body of tools.get_stats after the unread counts arrive. -/
def get_stats_core (unread_counts : List UnreadCount) : String :=
  let total := (statsLoop unread_counts).1
  let feed_stats := (statsLoop unread_counts).2
  let base := ("**Inoreader Statistics:**\n\n") ++ ("Total unread articles: ")
    ++ toString total ++ ("\n\n")
  if feed_stats.isEmpty then base
  else
    base ++ ("Top feeds with unread articles:\n")
      ++ String.join (((List.insertionSort statCountGE feed_stats).take 10).map
          (fun st => ("- ") ++ feedDisplayName st.id ++ (": ") ++ toString st.count ++ (" unread\n")))

/-- tools.get_stats, with the session and the unread-count fetch
represented by their outcome. -/
def get_stats (outcome : Except String (List UnreadCount)) : String :=
  match outcome with
  | .error e => ("Error getting stats: ") ++ e
  | .ok counts => get_stats_core counts

end Tools

theorem chunk_list_nil {α : Type} (n : Nat) : chunk_list ([] : List α) n = [] := by
  cases n with
  | zero => simp [chunk_list]
  | succ k =>
    have h : k / (k + 1) = 0 := Nat.div_eq_of_lt (by omega)
    simp [chunk_list, h]

theorem chunk_count_succ (m k : Nat) (hm : 1 ≤ m) :
    (m + (k + 1) - 1) / (k + 1) = ((m - (k + 1)) + (k + 1) - 1) / (k + 1) + 1 := by
  have h1 : m + (k + 1) - 1 = m + k := by omega
  have h2 : (m - (k + 1)) + (k + 1) - 1 = (m - (k + 1)) + k := by omega
  rw [h1, h2]
  rcases le_or_lt m (k + 1) with h | h
  · have h0 : m - (k + 1) = 0 := by omega
    have hm1 : m + k = (m - 1) + (k + 1) := by omega
    rw [h0, hm1, Nat.add_div_right _ (Nat.succ_pos k)]
    have hlt : (m - 1) / (k + 1) = 0 := Nat.div_eq_of_lt (by omega)
    have hk : (0 + k) / (k + 1) = 0 := Nat.div_eq_of_lt (by omega)
    rw [hlt, hk]
  · have h3 : m + k = ((m - (k + 1)) + k) + (k + 1) := by omega
    rw [h3, Nat.add_div_right _ (Nat.succ_pos k)]

theorem chunk_list_cons {α : Type} (l : List α) (hl : l ≠ []) (k : Nat) :
    chunk_list l (k + 1) = l.take (k + 1) :: chunk_list (l.drop (k + 1)) (k + 1) := by
  have hm : 1 ≤ l.length := List.length_pos.mpr hl
  unfold chunk_list
  rw [List.length_drop, chunk_count_succ l.length k hm, List.range'_succ]
  simp only [List.map_cons, List.drop_zero, Nat.zero_add]
  congr 1
  have hr : List.range' (k + 1) ((l.length - (k + 1) + (k + 1) - 1) / (k + 1)) (k + 1)
      = List.map (fun i => (k + 1) + i)
          (List.range' 0 ((l.length - (k + 1) + (k + 1) - 1) / (k + 1)) (k + 1)) := by
    rw [List.map_add_range']
  rw [hr, List.map_map]
  apply List.map_congr_left
  intro i _
  simp [List.drop_drop, Nat.add_comm]

theorem chunk_list_flatten {α : Type} (k : Nat) (l : List α) :
    (chunk_list l (k + 1)).flatten = l := by
  by_cases hl : l = []
  · subst hl
    simp [chunk_list_nil]
  · rw [chunk_list_cons l hl k, List.flatten_cons,
      chunk_list_flatten k (l.drop (k + 1)), List.take_append_drop]
termination_by l.length
decreasing_by
  have : 1 ≤ l.length := List.length_pos.mpr hl
  simp [List.length_drop]
  omega

theorem chunk_list_mem {α : Type} (k : Nat) (l : List α) :
    ∀ c ∈ chunk_list l (k + 1), c ≠ [] ∧ c.length ≤ k + 1 := by
  by_cases hl : l = []
  · subst hl
    simp [chunk_list_nil]
  · rw [chunk_list_cons l hl k]
    intro c hc
    rcases List.mem_cons.mp hc with h | h
    · subst h
      refine ⟨?_, ?_⟩
      · cases l with
        | nil => exact absurd rfl hl
        | cons a as => simp
      · rw [List.length_take]
        exact min_le_left _ _
    · exact chunk_list_mem k (l.drop (k + 1)) c h
termination_by l.length
decreasing_by
  have : 1 ≤ l.length := List.length_pos.mpr hl
  simp [List.length_drop]
  omega

theorem chunk_list_len25 {α : Type} (l : List α) (h : l.length = 25) :
    (chunk_list l 20).map List.length = [20, 5] := by
  have hl : l ≠ [] := by
    intro h0
    subst h0
    simp at h
  have hd : l.drop 20 ≠ [] := by
    intro h0
    have := congrArg List.length h0
    simp [List.length_drop, h] at this
  have e1 := chunk_list_cons l hl 19
  have e2 := chunk_list_cons (l.drop 20) hd 19
  norm_num at e1 e2
  have hz : List.drop 40 l = [] := by
    apply List.eq_nil_of_length_eq_zero
    simp [List.length_drop, h]
  rw [e1, e2, hz, chunk_list_nil]
  simp [List.length_take, List.length_drop, h]

theorem foldl_success_count (respond : Nat → Bool) :
    ∀ (l : List (Nat × List String)) (a : Nat),
      l.foldl (fun acc p => if respond p.1 then acc + p.2.length else acc) a
        = a + ((l.filter (fun p => respond p.1)).map (fun p => p.2.length)).sum := by
  intro l
  induction l with
  | nil => intro a; simp
  | cons p ps ih =>
    intro a
    by_cases hp : respond p.1
    · simp [hp, List.filter_cons, ih, Nat.add_assoc]
    · simp [hp, List.filter_cons, ih]

theorem stats_foldl (l : List UnreadCount) :
    ∀ (t : Int) (acc : List Tools.FeedStat),
      l.foldl
          (fun acc u =>
            if Tools.keepUnread u then
              (acc.1 + u.count.getD 0,
               acc.2 ++ [{ id := u.id.getD (""), count := u.count.getD 0 }])
            else acc)
          (t, acc)
        = (t + ((l.filter Tools.keepUnread).map (fun u => u.count.getD 0)).sum,
           acc ++ (l.filter Tools.keepUnread).map
             (fun u => ({ id := u.id.getD (""), count := u.count.getD 0 } : Tools.FeedStat))) := by
  induction l with
  | nil => intro t acc; simp
  | cons u us ih =>
    intro t acc
    by_cases hk : Tools.keepUnread u
    · simp [hk, List.filter_cons, ih, add_assoc]
    · simp [hk, List.filter_cons, ih]

theorem feedCatLabels_eq_none (cats : List Category) :
    feedCatLabels cats = none ↔ ∃ c ∈ cats, ∃ s, c = Category.cstr s := by
  induction cats with
  | nil => simp [feedCatLabels]
  | cons c cs ih =>
    cases c with
    | cstr s => simp [feedCatLabels]
    | cobj o lab => simp [feedCatLabels, Option.map_eq_none, ih]

/-- C1: the normalized is_read flag is true exactly when some category
entry of the raw item has an identifier containing the read-state
substring, where the identifier of an object entry is its id field
(defaulting to empty, so a label alone never counts, as `categoryIdent`
spells out) and the identifier of a plain-string entry is the string
itself; consequently an item all of whose categories are objects whose
ids lack the substring — whatever their labels, e.g. Read — has
is_read false. -/
theorem is_read_iff_read_identifier (item : Item) :
    ((parse_article item).is_read = true ↔
      ∃ cat ∈ item.categories.getD [], containsSub (categoryIdent cat) readStateTag = true)
    ∧ ((∀ cat ∈ item.categories.getD [],
          ∃ o lab, cat = Category.cobj o lab ∧ containsSub (o.getD ("")) readStateTag = false) →
        (parse_article item).is_read = false) := by
  have hiff : (parse_article item).is_read = true ↔
      ∃ cat ∈ item.categories.getD [], containsSub (categoryIdent cat) readStateTag = true := by
    simp only [parse_article, List.any_eq_true]
  refine ⟨hiff, ?_⟩
  intro h
  cases hread : (parse_article item).is_read with
  | false => rfl
  | true =>
    exfalso
    obtain ⟨cat, hm, hc⟩ := hiff.mp hread
    obtain ⟨o, lab, heq, hfalse⟩ := h cat hm
    subst heq
    have h2 : containsSub (o.getD ("")) readStateTag = true := hc
    rw [hfalse] at h2
    exact Bool.false_ne_true h2

/-- Witness for is_read_iff_read_identifier: an item whose sole category
is an object carrying the label Read but no id is not read. -/
theorem is_read_label_only_witness :
    (parse_article { categories := some [Category.cobj none (some ("Read"))] }).is_read = false := by
  apply (is_read_iff_read_identifier { categories := some [Category.cobj none (some ("Read"))] }).2
  intro cat hm
  have hcat : cat = Category.cobj none (some ("Read")) := by simpa using hm
  exact ⟨none, some ("Read"), hcat, by decide⟩

/-- C4 counterexample: a JSON-typed response parsing to the JSON string
OK makes the gateway report success, although its raw body is the
five-character JSON document and not the literal two-character text OK
(raw text reaches this code only as the rtext case; a body that is
exactly OK is not valid JSON, so it can never arrive as rjson). -/
theorem mark_as_read_ok_literal_counterexample :
    (InoreaderClient.mark_as_read [("x")] (MarkResp.rjson (JVal.jstr ("OK")))).2 = true
    ∧ MarkResp.rjson (JVal.jstr ("OK")) ≠ MarkResp.rtext ("OK") := by
  refine ⟨rfl, ?_⟩
  intro hcontra
  cases hcontra

/-- C4 amended: the gateway MarkAsRead returns success for an empty id
list with no request; for a non-empty list it posts the ids with the
read-state tag, and succeeds exactly when the value the request layer
yielded is the Python string OK — the raw text OK, or a JSON-typed body
parsing to the JSON string OK; every other response, in particular any
structured JSON, is failure. -/
theorem client_mark_as_read_success_condition (item_ids : List String) (resp : MarkResp) :
    (item_ids = [] → InoreaderClient.mark_as_read item_ids resp = (none, true))
    ∧ (item_ids ≠ [] →
        (InoreaderClient.mark_as_read item_ids resp).1
            = some { i := item_ids, a := ("user/-/state/com.google/read") }
          ∧ ((InoreaderClient.mark_as_read item_ids resp).2 = true ↔
              resp = MarkResp.rtext ("OK") ∨ resp = MarkResp.rjson (JVal.jstr ("OK")))) := by
  constructor
  · intro h
    subst h
    rfl
  · intro h
    have hne : item_ids.isEmpty = false := by
      cases item_ids with
      | nil => exact absurd rfl h
      | cons a as => rfl
    refine ⟨by simp [InoreaderClient.mark_as_read, hne], ?_⟩
    cases resp with
    | rtext s => simp [InoreaderClient.mark_as_read, hne]
    | rjson v => cases v <;> simp [InoreaderClient.mark_as_read, hne, jvalIsPyStr]

/-- Witness for client_mark_as_read_success_condition at one id and the
raw-text response OK. -/
theorem client_mark_as_read_success_witness :
    (InoreaderClient.mark_as_read [("x")] (MarkResp.rtext ("OK"))).2 = true := by
  have h := client_mark_as_read_success_condition [("x")] (MarkResp.rtext ("OK"))
  exact (h.2 (by simp)).2.mpr (Or.inl rfl)

/-- C5: when the request layer yields raw text, get_stream_contents and
search both return a structured result with an empty item list, and
when it yields structured JSON both return it unchanged, for every
choice of parameters. -/
theorem stream_and_search_text_fallback (maxArticles : Int) (stream_id : Option String)
    (count : Int) (exclude_read : Bool) (newer_than : Option Int) (query : String)
    (s : String) (v : StreamContents) :
    (InoreaderClient.get_stream_contents maxArticles stream_id count exclude_read newer_than
        (StreamResp.rtext s)).result = { items := some [] }
    ∧ (InoreaderClient.get_stream_contents maxArticles stream_id count exclude_read newer_than
        (StreamResp.rjson v)).result = v
    ∧ (InoreaderClient.search maxArticles query count newer_than
        (StreamResp.rtext s)).result = { items := some [] }
    ∧ (InoreaderClient.search maxArticles query count newer_than
        (StreamResp.rjson v)).result = v :=
  ⟨rfl, rfl, rfl, rfl⟩

/-- C6: for an item carrying a summary, the stored summary is the
tag-stripped content, truncated to its first 500 characters plus the
ellipsis marker exactly when the stripped text exceeds 500 characters,
and stored unchanged otherwise. -/
theorem summary_stripped_then_truncated (item : Item) (sb : ContentBlock)
    (h : item.summary = some sb) :
    (parse_article item).summary =
      some (if 500 < (stripTags (sb.content.getD (""))).length
            then (stripTags (sb.content.getD (""))).take 500 ++ ("...")
            else stripTags (sb.content.getD (""))) := by
  simp [parse_article, h]

/-- Witness for summary_stripped_then_truncated at a short summary with
one HTML tag. -/
theorem summary_stripped_witness :
    (parse_article { summary := some { content := some ("a<b>c") } }).summary = some ("ac") := by
  rw [summary_stripped_then_truncated { summary := some { content := some ("a<b>c") } }
    { content := some ("a<b>c") } rfl]
  decide

/-- C7 counterexample: when authentication fails during entry, a
connection was established but is not released before control leaves
the scope — Python skips the exit hook when the enter hook raises. -/
theorem session_release_counterexample :
    (InoreaderClient.with_client (Except.error ("Authentication failed: 401"))
        (Except.ok ())).connected = true
    ∧ (InoreaderClient.with_client (Except.error ("Authentication failed: 401"))
        (Except.ok ())).released = false :=
  ⟨rfl, rfl⟩

/-- C7 amended: when entry succeeds the connection is always released
before control leaves the scope, whatever the body did; but when an
error occurs during entry (authentication failure or missing token),
the connection that was established is not released. -/
theorem session_release_after_enter {α : Type} (body : Except String α) (e : String) :
    (InoreaderClient.with_client (Except.ok ()) body).connected = true
    ∧ (InoreaderClient.with_client (Except.ok ()) body).released = true
    ∧ (InoreaderClient.with_client (Except.error e) body).connected = true
    ∧ (InoreaderClient.with_client (Except.error e) body).released = false :=
  ⟨rfl, rfl, rfl, rfl⟩

/-- C9 counterexample: an item with no published timestamp and no
alternate links gets published_date and url equal to Python None, not
to the empty string the claim demands, so the two fields can be None. -/
theorem published_date_url_counterexample :
    (parse_article ({} : Item)).published_date = none
    ∧ (parse_article ({} : Item)).published_date ≠ some ("")
    ∧ (parse_article ({} : Item)).url = none
    ∧ (parse_article ({} : Item)).url ≠ some ("") := by
  exact ⟨rfl, by decide, rfl, by decide⟩

/-- C9 amended: published_date is the ISO rendering of the timestamp
when the item carries a non-zero published value and None otherwise,
and url is the href of the first text/html alternate link (itself
possibly absent) and None when no such link exists — None, not the
empty string, in the absent cases. -/
theorem published_date_and_url (item : Item) :
    ((parse_article item).published_date = none ↔ pyTruthyInt item.published = false)
    ∧ (∀ p : Int, item.published = some p → p ≠ 0 →
        (parse_article item).published_date = some (isoformat p))
    ∧ (parse_article item).url = (firstHtmlAlt item).bind Alternate.href
    ∧ (firstHtmlAlt item = none → (parse_article item).url = none)
    ∧ (∀ u, (parse_article item).url = some u →
        ∃ alt ∈ item.alternate.getD [], alt.type = some ("text/html") ∧ alt.href = some u) := by
  refine ⟨?_, ?_, rfl, ?_, ?_⟩
  · cases hp : pyTruthyInt item.published <;> simp [parse_article, hp]
  · intro p hp hne
    have ht : pyTruthyInt (some p) = true := by simp [pyTruthyInt, hne]
    simp [parse_article, hp, ht]
  · intro h
    simp [parse_article, h]
  · intro u hu
    have hu2 : (firstHtmlAlt item).bind Alternate.href = some u := hu
    rcases hfa : firstHtmlAlt item with _ | alt
    · rw [hfa] at hu2
      cases hu2
    · rw [hfa] at hu2
      have hh : alt.href = some u := by simpa using hu2
      have hfa2 : (item.alternate.getD []).find? (fun a => a.type == some ("text/html")) = some alt := hfa
      have hmem := List.mem_of_find?_eq_some hfa2
      have hpred := List.find?_some hfa2
      exact ⟨alt, hmem, by simpa using hpred, hh⟩

/-- Witness for published_date_and_url at an item with a nonzero
timestamp and one text/html link. -/
theorem published_date_and_url_witness :
    (parse_article { published := some 1, alternate := some [Alternate.mk (some ("text/html")) (some ("https://e"))] }).published_date
      = some (isoformat 1)
    ∧ (parse_article { published := some 1, alternate := some [Alternate.mk (some ("text/html")) (some ("https://e"))] }).url
      = some ("https://e") := by
  have h := published_date_and_url { published := some 1, alternate := some [Alternate.mk (some ("text/html")) (some ("https://e"))] }
  refine ⟨h.2.1 1 rfl (by decide), ?_⟩
  rw [h.2.2.1]
  decide

/-- C10: parse_feed fails (the Python function raises AttributeError)
exactly when some category entry of the subscription is a plain string,
while parse_article, by contrast, maps every category entry — string or
object — to an output entry for every item. -/
theorem parse_feed_vs_parse_article (subscription : Subscription) :
    (parse_feed subscription = none ↔
      ∃ cat ∈ subscription.categories.getD [], ∃ s, cat = Category.cstr s)
    ∧ (∀ item : Item,
        ((parse_article item).categories).length = (item.categories.getD []).length) := by
  constructor
  · have hsplit : parse_feed subscription = none ↔
        feedCatLabels (subscription.categories.getD []) = none := by
      cases hfc : feedCatLabels (subscription.categories.getD []) <;> simp [parse_feed, hfc]
    rw [hsplit, feedCatLabels_eq_none]
  · intro item
    simp [parse_article]

/-- C2: every failure raised inside any of the six tool operations is
caught and rendered as a one-line string with the operation-specific
prefix followed by the failure detail, instead of propagating (the
operations are total functions into strings by construction, so no
input makes them fail). For mark_as_read an empty id list answers
before any client work, so a failure can only be observed on a
non-empty list. -/
theorem tools_catch_and_prefix_errors (e : String) (now limit days maxArticles : Int)
    (feed_id : Option String) (unread_only : Bool) (query article_id : String)
    (daysOpt : Option Int) (article_ids : List String) :
    Tools.list_feeds (Except.error e) = ("Error listing feeds: ") ++ e
    ∧ Tools.list_articles now limit days feed_id unread_only maxArticles (Except.error e)
        = ("Error listing articles: ") ++ e
    ∧ Tools.search_articles now query limit daysOpt maxArticles (Except.error e)
        = ("Error searching articles: ") ++ e
    ∧ Tools.get_content article_id (Except.error e)
        = ("Error getting article content: ") ++ e
    ∧ (article_ids ≠ [] → Tools.mark_as_read article_ids (Except.error e)
        = ("Error marking articles as read: ") ++ e)
    ∧ Tools.get_stats (Except.error e) = ("Error getting stats: ") ++ e := by
  refine ⟨rfl, rfl, rfl, rfl, ?_, rfl⟩
  intro h
  cases article_ids with
  | nil => exact absurd rfl h
  | cons a as => rfl

/-- Witness for tools_catch_and_prefix_errors at a nonempty id list and
a concrete failure detail. -/
theorem tools_catch_witness :
    Tools.mark_as_read [("x")] (Except.error ("boom"))
      = "Error marking articles as read: boom" := by
  have h := tools_catch_and_prefix_errors ("boom") 0 0 0 0 none true ("q") ("a") none [("x")]
  exact (h.2.2.2.2.1 (by simp)).trans rfl

/-- C3: tools.mark_as_read splits the ids into consecutive nonempty
chunks of at most 20 that concatenate back to the input in order, 25
ids give exactly the chunk lengths 20 and 5, and the rendered message
is determined by the tally of ids lying in chunks whose sequential
endpoint call reported success: the full-success line when every id
succeeded, the counted partial line when some but not all did, and the
failure line when none did. -/
theorem mark_as_read_batches_and_tally (article_ids : List String) (respond : Nat → Bool)
    (h : article_ids ≠ []) :
    (chunk_list article_ids 20).flatten = article_ids
    ∧ (∀ c ∈ chunk_list article_ids 20, c ≠ [] ∧ c.length ≤ 20)
    ∧ (article_ids.length = 25 → (chunk_list article_ids 20).map List.length = [20, 5])
    ∧ (let k := (((chunk_list article_ids 20).enum.filter (fun p => respond p.1)).map
          (fun p => p.2.length)).sum
       Tools.mark_as_read article_ids (Except.ok respond) =
         if k = article_ids.length then
           ("Successfully marked ") ++ toString k ++ (" article(s) as read.")
         else if 0 < k then
           ("Marked ") ++ toString k ++ (" out of ") ++ toString article_ids.length
             ++ (" articles as read.")
         else "Failed to mark articles as read.") := by
  have hne : article_ids.isEmpty = false := by
    cases article_ids with
    | nil => exact absurd rfl h
    | cons a as => rfl
  refine ⟨chunk_list_flatten 19 article_ids, chunk_list_mem 19 article_ids,
    chunk_list_len25 article_ids, ?_⟩
  simp only [Tools.mark_as_read, hne]
  rw [foldl_success_count]
  simp

/-- Witness for mark_as_read_batches_and_tally: 25 identical ids with
the first sequential call succeeding and the second failing render the
partial-success line counting 20 of 25. -/
theorem mark_as_read_batches_witness :
    Tools.mark_as_read (List.replicate 25 ("x")) (Except.ok (fun i => i == 0))
      = "Marked 20 out of 25 articles as read." := by
  have h := mark_as_read_batches_and_tally (List.replicate 25 ("x")) (fun i => i == 0)
    (by decide)
  exact h.2.2.2.trans (by decide)

/-- C8 counterexample: for the id feed/http://a/feed/x the code removes
every occurrence of the feed-prefix pattern before splitting on the
scheme separator, displaying a/x, while the claim demands only the
leading prefix stripped with the rest preserved, which would display
a/feed/x (specDisplayName renders the claim wording); the full
statistics output for one such entry indeed shows a/x. -/
theorem get_stats_display_name_counterexample :
    Tools.feedDisplayName ("feed/http://a/feed/x") = ("a/x")
    ∧ Tools.specDisplayName ("feed/http://a/feed/x") = ("a/feed/x")
    ∧ ("a/x" : String) ≠ ("a/feed/x")
    ∧ Tools.get_stats_core [{ id := some ("feed/http://a/feed/x"), count := some 5 }]
        = ("**Inoreader Statistics:**\n\nTotal unread articles: 5\n\nTop feeds with unread articles:\n- a/x: 5 unread\n") :=
  ⟨by decide, by decide, by decide, by decide⟩

/-- C8 amended: get_stats retains exactly the unread-count entries with
positive count and a feed-prefixed id, reports the sum of their counts
as the total, and lists the top 10 after a stable descending sort by
count, displaying each id with every occurrence of the feed prefix
removed and, when a scheme separator remains, only the portion after
the last separator; the final conjunct renders the whole output through
that filter/sum/sort/display pipeline. -/
theorem get_stats_retention_and_display (unread_counts : List UnreadCount) :
    Tools.statsLoop unread_counts =
      (((unread_counts.filter Tools.keepUnread).map (fun u => u.count.getD 0)).sum,
       (unread_counts.filter Tools.keepUnread).map
         (fun u => { id := u.id.getD (""), count := u.count.getD 0 }))
    ∧ List.Sorted Tools.statCountGE
        (List.insertionSort Tools.statCountGE (Tools.statsLoop unread_counts).2)
    ∧ Tools.get_stats_core unread_counts =
        (let stats := (unread_counts.filter Tools.keepUnread).map
            (fun u => ({ id := u.id.getD (""), count := u.count.getD 0 } : Tools.FeedStat))
         let total := ((unread_counts.filter Tools.keepUnread).map
            (fun u => u.count.getD 0)).sum
         let base := ("**Inoreader Statistics:**\n\n") ++ ("Total unread articles: ")
           ++ toString total ++ ("\n\n")
         if stats.isEmpty then base
         else
           base ++ ("Top feeds with unread articles:\n")
             ++ String.join (((List.insertionSort Tools.statCountGE stats).take 10).map
                 (fun st => ("- ") ++ Tools.feedDisplayName st.id ++ (": ")
                   ++ toString st.count ++ (" unread\n")))) := by
  have h1 : Tools.statsLoop unread_counts =
      (((unread_counts.filter Tools.keepUnread).map (fun u => u.count.getD 0)).sum,
       (unread_counts.filter Tools.keepUnread).map
         (fun u => { id := u.id.getD (""), count := u.count.getD 0 })) := by
    unfold Tools.statsLoop
    rw [stats_foldl]
    simp
  refine ⟨h1, List.sorted_insertionSort _ _, ?_⟩
  simp only [Tools.get_stats_core, h1]
